import Mathlib

/-!
Verification of the HDHomeRun discovery core (`custom_components/hdhomerun/pyhdhr`).

This file shallowly embeds the device model, the discovery orchestrator, the
HTTP discovery transport and the tuner-status refresh logic of
`pyhdhr/discover.py` (with the status-string decoding shared with
`pyhdhr/device.py`), and proves or refutes the frozen claims about them.

Network I/O is embedded by passing the outcome of each network call as an
explicit argument (an oracle); Python exceptions are embedded as `Except`
errors; Python `None` becomes `Option.none`; Python dictionaries become
insertion-ordered association lists with in-place update semantics.
-/

set_option maxHeartbeats 1000000

/-- A dynamic attribute value as stored on a device by `setattr`: the decoded
UDP/TCP values and the JSON scalar values are strings or integers. -/
inductive PropValue
  | str (s : String)
  | int (n : Int)
deriving DecidableEq

/-- Python truthiness of a stored value: the empty string and zero are falsy. -/
def pvTruthy : PropValue → Bool
  | PropValue.str s => s != ""
  | PropValue.int n => n != 0

/-- Python `str()` of a stored value, as used in f-string interpolation. -/
def pyStr : PropValue → String
  | PropValue.str s => s
  | PropValue.int n => toString n

/-- Discovery modes, from `discover.py` (`DiscoverMode`). -/
inductive DiscoverMode
  | AUTO
  | HTTP
  | UDP
deriving DecidableEq

/-- Python exceptions that the embedded code can raise. -/
inductive PyErr
  | valueError
  | structError
  | indexError
  | unboundLocalError
  | httpDiscoveryNotAvailable
deriving DecidableEq

/-- The device attributes that the discovery property tables
(`_DiscoverProtocol.TAG_PROPERTY_MAP`, `DiscoverHTTP.JSON_PROPERTIES_MAP`)
can read and write by name. -/
inductive PropName
  | availableFirmware
  | baseUrl
  | deviceAuthStr
  | deviceId
  | deviceType
  | discoverUrl
  | friendlyName
  | host
  | lineupUrl
  | sysHwmodel
  | sysModel
  | sysVersion
  | tunerCount
deriving DecidableEq

/-- One per-tuner status record, a Python dict with string keys
(`Resource`, `SignalStrengthPercent`, ...). -/
abbrev TunerInfo := List (String × PropValue)

/-- Python dict lookup on an insertion-ordered association list. -/
def dictGet {κ α : Type} [DecidableEq κ] (d : List (κ × α)) (k : κ) : Option α :=
  (d.find? (fun kv => decide (kv.1 = k))).map (fun kv => kv.2)

/-- Python dict assignment: update the existing entry in place, else append. -/
def dictSet {κ α : Type} [DecidableEq κ] (d : List (κ × α)) (k : κ) (v : α) :
    List (κ × α) :=
  if d.any (fun kv => decide (kv.1 = k)) then
    d.map (fun kv => if kv.1 = k then (k, v) else kv)
  else d ++ [(k, v)]

/-- Python `dict.update`: assign every given pair in order. -/
def dictUpdate {κ α : Type} [DecidableEq κ] (d : List (κ × α)) (kvs : List (κ × α)) :
    List (κ × α) :=
  kvs.foldl (fun acc kv => dictSet acc kv.1 kv.2) d

/-- The device record, embedding `HDHomeRunDevice.__init__` of `discover.py`
(lines 510-533). The session and logger plumbing is not represented; every
other instance attribute is a field. `_host` is the constructor argument. -/
structure HDHomeRunDevice where
  _host : PropValue
  _available_firmware : Option PropValue := none
  _base_url : Option PropValue := none
  _channels : List PropValue := []
  _device_auth_str : Option PropValue := none
  _device_id : Option PropValue := none
  _device_type : Option PropValue := none
  _discover_url : Option PropValue := none
  _discovery_method : Option DiscoverMode := none
  _friendly_name : Option PropValue := none
  _is_online : Bool := true
  _lineup_url : Option PropValue := none
  _sys_hwmodel : Option PropValue := none
  _sys_model : Option PropValue := none
  _sys_version : Option PropValue := none
  _tuner_count : Option PropValue := none
  _tuner_status : Option (List TunerInfo) := none
deriving DecidableEq

/-- Python `getattr(device, property_name, None)` for the table-driven
property names. `_host` is always set, the rest default to `None`. -/
def getProp (d : HDHomeRunDevice) : PropName → Option PropValue
  | PropName.availableFirmware => d._available_firmware
  | PropName.baseUrl => d._base_url
  | PropName.deviceAuthStr => d._device_auth_str
  | PropName.deviceId => d._device_id
  | PropName.deviceType => d._device_type
  | PropName.discoverUrl => d._discover_url
  | PropName.friendlyName => d._friendly_name
  | PropName.host => some d._host
  | PropName.lineupUrl => d._lineup_url
  | PropName.sysHwmodel => d._sys_hwmodel
  | PropName.sysModel => d._sys_model
  | PropName.sysVersion => d._sys_version
  | PropName.tunerCount => d._tuner_count

/-- Python `setattr(device, property_name, value)` for the table-driven
property names. -/
def setProp (d : HDHomeRunDevice) : PropName → PropValue → HDHomeRunDevice
  | PropName.availableFirmware, v => { d with _available_firmware := some v }
  | PropName.baseUrl, v => { d with _base_url := some v }
  | PropName.deviceAuthStr, v => { d with _device_auth_str := some v }
  | PropName.deviceId, v => { d with _device_id := some v }
  | PropName.deviceType, v => { d with _device_type := some v }
  | PropName.discoverUrl, v => { d with _discover_url := some v }
  | PropName.friendlyName, v => { d with _friendly_name := some v }
  | PropName.host, v => { d with _host := v }
  | PropName.lineupUrl, v => { d with _lineup_url := some v }
  | PropName.sysHwmodel, v => { d with _sys_hwmodel := some v }
  | PropName.sysModel, v => { d with _sys_model := some v }
  | PropName.sysVersion, v => { d with _sys_version := some v }
  | PropName.tunerCount, v => { d with _tuner_count := some v }

/-- Modelled from the spec: `pyhdhr/const.py` is not under `src/`. The tag
numbers follow the vendor TLV protocol of spec section 4.1/6; the developments
below depend only on the constants being pairwise distinct. -/
def HDHOMERUN_TAG_DEVICE_TYPE : Nat := 0x01

def HDHOMERUN_TAG_DEVICE_ID : Nat := 0x02

def HDHOMERUN_TAG_TUNER_COUNT : Nat := 0x10

def HDHOMERUN_TAG_LINEUP_URL : Nat := 0x27

def HDHOMERUN_TAG_BASE_URL : Nat := 0x2A

def HDHOMERUN_TAG_DEVICE_AUTH_STR : Nat := 0x2B

/-- Modelled from the spec: the discovery-reply packet type of section 4.2. -/
def HDHOMERUN_TYPE_DISCOVER_RPY : Nat := 0x0003

/-- `_DiscoverProtocol.TAG_PROPERTY_MAP` of `discover.py` (lines 371-378). -/
def tagPropertyMap : List (Nat × PropName) :=
  [(HDHOMERUN_TAG_BASE_URL, PropName.baseUrl),
   (HDHOMERUN_TAG_DEVICE_AUTH_STR, PropName.deviceAuthStr),
   (HDHOMERUN_TAG_DEVICE_ID, PropName.deviceId),
   (HDHOMERUN_TAG_DEVICE_TYPE, PropName.deviceType),
   (HDHOMERUN_TAG_LINEUP_URL, PropName.lineupUrl),
   (HDHOMERUN_TAG_TUNER_COUNT, PropName.tunerCount)]

/-- The property names iterated by the UDP merge loop. -/
def udpMergeProps : List PropName := tagPropertyMap.map (fun tp => tp.2)

/-- The UDP merge of `Discover.discover` (`discover.py` lines 109-117): for
every property in `TAG_PROPERTY_MAP`, if the newly discovered UDP device has a
non-None value, set it on the already stored device. -/
def mergeUdpDevice (existing dev : HDHomeRunDevice) : HDHomeRunDevice :=
  tagPropertyMap.foldl
    (fun target tp =>
      match getProp dev tp.2 with
      | some v => setProp target tp.2 v
      | none => target)
    existing

/-- The per-field effect of the UDP merge: the UDP value wins when present. -/
def pickUdp (existing udp : Option PropValue) : Option PropValue :=
  match udp with
  | some v => some v
  | none => existing

/-- Python `str.split(sep)` for a one-character separator, over the character
list of the string. -/
def splitOnChar (c : Char) : List Char → List (List Char)
  | [] => [[]]
  | x :: xs =>
    let r := splitOnChar c xs
    if x == c then [] :: r
    else
      match r with
      | [] => [[x]]
      | h :: t => (x :: h) :: t

/-- Python `str.rstrip("\0")`: drop the trailing NUL characters. -/
def rstripNul (s : List Char) : List Char :=
  (s.reverse.dropWhile (fun c => c == Char.ofNat 0)).reverse

/-- A decimal digit character to its value. -/
def digitVal? (c : Char) : Option Nat :=
  if 48 ≤ c.toNat ∧ c.toNat ≤ 57 then some (c.toNat - 48) else none

/-- A non-empty all-digit character list to a natural number. -/
def digitsToNat? (s : List Char) : Option Nat :=
  if s.isEmpty then none
  else s.foldlM (fun acc c => (digitVal? c).map (fun d => acc * 10 + d)) 0

/-- Python `int(s)` on the strings that arise here: an optional minus sign
followed by decimal digits; anything else raises `ValueError` (`none`). -/
def pyInt? (s : List Char) : Option Int :=
  match s with
  | '-' :: rest => (digitsToNat? rest).map (fun n => -(n : Int))
  | _ => (digitsToNat? s).map (fun n => (n : Int))

/-- One iteration of the tuner-status detail loop of
`HDHomeRunDevice._async_get_tuner_status_udp` (`device.py` lines 244-258);
the loop in `_async_tuner_refresh_tcp` (`discover.py` lines 596-610) is
identical.  A detail that does not split into exactly a tag and a value
raises `ValueError` on tuple unpacking (`none` result); a value that is not
an integer leaves the record untouched; a zero integer is not included; a
non-zero integer is stored under the mapped name when the tag is mapped. -/
def processDetail (info : TunerInfo) (detail : List Char) : Option TunerInfo :=
  match splitOnChar '=' detail with
  | [tag, value] =>
    some
      (match pyInt? value with
       | none => info
       | some v =>
         if v ≠ 0 then
           if tag = "seq".data then dictSet info "SymbolQualityPercent" (PropValue.int v)
           else if tag = "snq".data then dictSet info "SignalQualityPercent" (PropValue.int v)
           else if tag = "ss".data then dictSet info "SignalStrengthPercent" (PropValue.int v)
           else info
         else info)
  | _ => none

/-- The per-tuner processing of `_async_tuner_refresh_tcp` (`discover.py`
lines 591-651) for one successful tuner reply, given as the decoded getset
name and value strings of the reply frame.  The two dependent channel-lookup
round trips of lines 615-647 are network calls; their contribution to the
record is abstracted as the `extras` oracle, keyed by the tuner resource. -/
def processTuner (extras : String → TunerInfo) (reply : String × String) :
    Except PyErr TunerInfo :=
  let key : List Char := rstripNul reply.1.data
  let val : List Char := rstripNul reply.2.data
  match (splitOnChar '/' key).get? 1 with
  | none => Except.error PyErr.indexError
  | some resourcePart =>
    let resource : String := String.mk resourcePart
    let info0 : TunerInfo := [("Resource", PropValue.str resource)]
    match (splitOnChar ' ' val).foldlM processDetail info0 with
    | none => Except.error PyErr.valueError
    | some info =>
      if (dictGet info "SymbolQualityPercent").isSome then
        Except.ok (dictUpdate info (extras resource))
      else Except.ok info

/-- The tuner loop of `_async_tuner_refresh_tcp` (`discover.py` lines
583-651): a `None` gather result marks the device offline and is skipped; a
reply marks it online and appends the decoded record. -/
def tcpStatusFold (extras : String → TunerInfo) :
    List (Option (String × String)) → HDHomeRunDevice → List TunerInfo →
    Except PyErr (HDHomeRunDevice × List TunerInfo)
  | [], d, ts => Except.ok (d, ts)
  | none :: rest, d, ts =>
    tcpStatusFold extras rest { d with _is_online := false } ts
  | some reply :: rest, d, ts =>
    match processTuner extras reply with
    | Except.error e => Except.error e
    | Except.ok info =>
      tcpStatusFold extras rest { d with _is_online := true } (ts ++ [info])

/-- `HDHomeRunDevice._async_tuner_refresh_tcp` (`discover.py` lines 569-654);
`replies` holds the gathered `get_tuner_status` outcomes, one per tuner,
`None` for an unreachable tuner (modelled from the spec: `pyhdhr/protocol.py`
is not under `src/`; spec sections 5 and 8 state that the gather yields `None`
for an unreachable tuner).  The new status list is assigned only when it is
non-empty (lines 653-654). -/
def tunerRefreshTcp (d : HDHomeRunDevice)
    (replies : List (Option (String × String))) (extras : String → TunerInfo) :
    Except PyErr HDHomeRunDevice :=
  match tcpStatusFold extras replies d [] with
  | Except.error e => Except.error e
  | Except.ok (d2, ts) =>
    Except.ok (if ts.isEmpty then d2 else { d2 with _tuner_status := some ts })

/-- The outcome of the `status.json` GET in `_async_tuner_refresh_http`:
a non-2xx response raises `aiohttp.ClientResponseError`, a timeout raises
`asyncio.TimeoutError`, any other exception lands in the broad handler, and a
success carries the parsed JSON body. -/
inductive HttpFetchOutcome
  | clientResponseError
  | timeoutError
  | otherError
  | success (body : List TunerInfo)

/-- `HDHomeRunDevice._async_tuner_refresh_http` (`discover.py` lines 539-567):
a non-2xx response or another non-timeout error is only logged, a timeout
marks the device offline, and a success marks it online and wholesale-assigns
the parsed body to `_tuner_status`. -/
def tunerRefreshHttp (d : HDHomeRunDevice) (o : HttpFetchOutcome) : HDHomeRunDevice :=
  match o with
  | HttpFetchOutcome.clientResponseError => d
  | HttpFetchOutcome.timeoutError => { d with _is_online := false }
  | HttpFetchOutcome.otherError => d
  | HttpFetchOutcome.success body =>
    { d with _is_online := true, _tuner_status := some body }

/-- Python `bytes.decode()` restricted to the byte strings that occur here. -/
def bytesDecode (b : List Nat) : String :=
  String.mk (b.map Char.ofNat)

/-- Python `struct.unpack(">L", b)`: exactly four bytes, big endian. -/
def unpackUInt32BE? (b : List Nat) : Option Nat :=
  match b with
  | [b0, b1, b2, b3] => some (((b0 * 256 + b1) * 256 + b2) * 256 + b3)
  | _ => none

/-- Python `struct.unpack(">B", b)`: exactly one byte. -/
def unpackUInt8? (b : List Nat) : Option Nat :=
  match b with
  | [b0] => some b0
  | _ => none

/-- Python `f"{n:04X}"`: uppercase hexadecimal, zero-padded on the left to a
minimum width of four characters. -/
def pyFormat04X (n : Nat) : String :=
  let ds : List Char := (Nat.toDigits 16 n).map Char.toUpper
  String.mk (List.replicate (4 - ds.length) '0' ++ ds)

/-- The parsed TLV discovery reply handed to `datagram_received`: the frame
header and the tag-to-bytes data mapping produced by
`HDHomeRunProtocol.parse_response` (spec section 4.1). -/
structure ParsedResponse where
  header : Nat
  data : List (Nat × List Nat)

/-- The per-tag decoding of `_DiscoverProtocol.datagram_received`
(`discover.py` lines 437-466): URL and auth tags decode as strings, the
device id decodes as a 4-byte big-endian integer rendered through `f"{v:04X}"`,
the device type as a 4-byte integer and the tuner count as a single byte;
an unknown tag leaves the property value `None`.  A `struct.unpack` on a
value of the wrong length raises. -/
def datagramProperty (data : List (Nat × List Nat)) (tag : Nat) :
    Except PyErr (Option PropValue) :=
  if tag = HDHOMERUN_TAG_BASE_URL then
    Except.ok (some (PropValue.str (bytesDecode ((dictGet data tag).getD []))))
  else if tag = HDHOMERUN_TAG_DEVICE_AUTH_STR then
    Except.ok (some (PropValue.str (bytesDecode ((dictGet data tag).getD []))))
  else if tag = HDHOMERUN_TAG_DEVICE_ID then
    match unpackUInt32BE? ((dictGet data tag).getD []) with
    | none => Except.error PyErr.structError
    | some v => Except.ok (some (PropValue.str (pyFormat04X v)))
  else if tag = HDHOMERUN_TAG_DEVICE_TYPE then
    match unpackUInt32BE? ((dictGet data tag).getD []) with
    | none => Except.error PyErr.structError
    | some v => Except.ok (some (PropValue.int v))
  else if tag = HDHOMERUN_TAG_LINEUP_URL then
    Except.ok (some (PropValue.str (bytesDecode ((dictGet data tag).getD []))))
  else if tag = HDHOMERUN_TAG_TUNER_COUNT then
    match unpackUInt8? ((dictGet data tag).getD []) with
    | none => Except.error PyErr.structError
    | some v => Except.ok (some (PropValue.int v))
  else Except.ok none

/-- `_DiscoverProtocol.datagram_received` (`discover.py` lines 417-472): a
frame whose header is not the discovery-reply type raises `ValueError`;
otherwise a fresh device keyed on the sender address is populated tag by tag,
applying only truthy decoded values through `TAG_PROPERTY_MAP`. -/
def datagram_received (ip : String) (response : ParsedResponse) :
    Except PyErr HDHomeRunDevice :=
  if response.header ≠ HDHOMERUN_TYPE_DISCOVER_RPY then Except.error PyErr.valueError
  else
    response.data.foldlM
      (fun dev tagEntry =>
        (datagramProperty response.data tagEntry.1).map
          (fun pv =>
            match pv with
            | some v =>
              if pvTruthy v then
                match dictGet tagPropertyMap tagEntry.1 with
                | some p => setProp dev p v
                | none => dev
              else dev
            | none => dev))
      { _host := PropValue.str ip }

/-- A JSON object of the discovery endpoints: an insertion-ordered mapping
from key strings to scalar values. -/
abbrev JsonObject := List (String × PropValue)

/-- The outcome of the `session.get` in `DiscoverHTTP.discover`: any exception
(timeout, connector error, or the non-2xx raised by `raise_for_status`) lands
in the one `except` clause; a success carries the parsed JSON body, either a
single object or an array of objects. -/
inductive HttpDiscoverResult
  | failure
  | obj (o : JsonObject)
  | arr (l : List JsonObject)

/-- `DiscoverHTTP.JSON_PROPERTIES_MAP` of `discover.py` (lines 174-187). -/
def jsonPropertiesMap : List (String × PropName) :=
  [("BaseURL", PropName.baseUrl),
   ("DeviceAuth", PropName.deviceAuthStr),
   ("DeviceID", PropName.deviceId),
   ("DiscoverURL", PropName.discoverUrl),
   ("FirmwareName", PropName.sysModel),
   ("FirmwareVersion", PropName.sysVersion),
   ("FriendlyName", PropName.friendlyName),
   ("LineupURL", PropName.lineupUrl),
   ("LocalIP", PropName.host),
   ("ModelNumber", PropName.sysHwmodel),
   ("TunerCount", PropName.tunerCount),
   ("UpgradeAvailable", PropName.availableFirmware)]

/-- Construction of one device from one JSON object in `DiscoverHTTP.discover`
(`discover.py` lines 236-250): the host is `LocalIP` when truthy, else the
hostname of the queried URL; then every key of the object that appears in
`JSON_PROPERTIES_MAP` is set on the device, other keys are ignored. -/
def buildDeviceFromJson (hostname : String) (o : JsonObject) : HDHomeRunDevice :=
  let host : PropValue :=
    match dictGet o "LocalIP" with
    | some v => if pvTruthy v then v else PropValue.str hostname
    | none => PropValue.str hostname
  o.foldl
    (fun dev kv =>
      match dictGet jsonPropertiesMap kv.1 with
      | some p => setProp dev p kv.2
      | none => dev)
    { _host := host }

/-- `DiscoverHTTP.discover` (`discover.py` lines 189-256), given the parsed
outcome of the GET (`hostname` is `urlparse(discover_url).hostname`, the
`LocalIP` fallback).  Any request failure is re-raised as the dedicated
HTTP-discovery-unavailable error; an empty body yields no devices; a single
object is normalized to a one-element list. -/
def DiscoverHTTP_discover (resp : HttpDiscoverResult) (hostname : String) :
    Except PyErr (List HDHomeRunDevice) :=
  match resp with
  | HttpDiscoverResult.failure => Except.error PyErr.httpDiscoveryNotAvailable
  | HttpDiscoverResult.obj o =>
    Except.ok (if o.isEmpty then [] else [buildDeviceFromJson hostname o])
  | HttpDiscoverResult.arr l =>
    Except.ok (if l.isEmpty then [] else l.map (buildDeviceFromJson hostname))

/-- `DiscoverHTTP.rediscover` (`discover.py` lines 258-310), given the parsed
outcome of the targeted `discover.json` GET.  The unavailable error is caught
and the target returned as-is; on success the target's discover URL and
discovery method are set, then `updated_device[0]` raises `IndexError` when
the response produced no devices (in Python the target keeps those two
mutations when the error propagates), else every non-None mapped property of
the first result is copied onto the target. -/
def DiscoverHTTP_rediscover (target : HDHomeRunDevice) (resp : HttpDiscoverResult)
    (hostname : String) : Except PyErr HDHomeRunDevice :=
  let discoverUrl : PropValue :=
    match target._discover_url with
    | some u => u
    | none => PropValue.str ("http://" ++ pyStr target._host ++ "/discover.json")
  match DiscoverHTTP_discover resp hostname with
  | Except.error _ => Except.ok target
  | Except.ok updated =>
    let target2 : HDHomeRunDevice :=
      { target with _discover_url := some discoverUrl,
                    _discovery_method := some DiscoverMode.HTTP }
    match updated.head? with
    | none => Except.error PyErr.indexError
    | some first =>
      Except.ok
        (jsonPropertiesMap.foldl
          (fun t kp =>
            match getProp first kp.2 with
            | some v => setProp t kp.2 v
            | none => t)
          target2)

/-- The devices dictionary of `Discover.discover`, keyed by `device_id`. -/
abbrev DeviceDict := List (Option PropValue × HDHomeRunDevice)

/-- The HTTP region of `Discover.discover` (`discover.py` lines 86-97): in
AUTO or HTTP mode the directory is queried, the unavailable error is only
logged, and each result is stored under its `device_id` with discovery method
HTTP. -/
def applyHttpRegion (mode : DiscoverMode) (directoryResp : HttpDiscoverResult)
    (hostname : String) : DeviceDict :=
  if mode = DiscoverMode.AUTO ∨ mode = DiscoverMode.HTTP then
    match DiscoverHTTP_discover directoryResp hostname with
    | Except.error _ => []
    | Except.ok devs =>
      devs.foldl
        (fun acc dev =>
          let dev2 : HDHomeRunDevice :=
            { dev with _discovery_method := some DiscoverMode.HTTP }
          dictSet acc dev2._device_id dev2)
        []
  else []

/-- The UDP region of `Discover.discover` (`discover.py` lines 100-118): in
AUTO or UDP mode each UDP device is inserted when its id is new (with
discovery method UDP), else merged field by field onto the stored device. -/
def applyUdpRegion (mode : DiscoverMode) (udpDevices : List HDHomeRunDevice)
    (devices : DeviceDict) : DeviceDict :=
  if mode = DiscoverMode.AUTO ∨ mode = DiscoverMode.UDP then
    udpDevices.foldl
      (fun acc dev =>
        match dictGet acc dev._device_id with
        | none =>
          dictSet acc dev._device_id
            { dev with _discovery_method := some DiscoverMode.UDP }
        | some existing => dictSet acc dev._device_id (mergeUdpDevice existing dev))
      devices
  else devices

/-- The device dictionary after both discovery regions, before enrichment. -/
def mergedDevices (mode : DiscoverMode) (directoryResp : HttpDiscoverResult)
    (hostname : String) (udpDevices : List HDHomeRunDevice) : DeviceDict :=
  applyUdpRegion mode udpDevices (applyHttpRegion mode directoryResp hostname)

/-- `Discover.discover` (`discover.py` lines 65-132): both regions fill the
devices dictionary, then every stored device is passed to
`DiscoverHTTP.rediscover` (lines 125-126, with no exception handling), which
mutates it in place; the values of the dictionary are returned.  `enrichResp`
and `enrichHostname` are the per-device outcome and URL hostname of the
enrichment GET. -/
def Discover_discover (mode : DiscoverMode) (directoryResp : HttpDiscoverResult)
    (hostname : String) (udpDevices : List HDHomeRunDevice)
    (enrichResp : HDHomeRunDevice → HttpDiscoverResult)
    (enrichHostname : HDHomeRunDevice → String) :
    Except PyErr (List HDHomeRunDevice) :=
  (mergedDevices mode directoryResp hostname udpDevices).foldlM
    (fun acc entry =>
      (DiscoverHTTP_rediscover entry.2 (enrichResp entry.2) (enrichHostname entry.2)).map
        (fun d => acc ++ [d]))
    []

/-- A coarse model of a Python attribute value, enough to evaluate the
`is None` tests of `Discover.rediscover`. -/
inductive PyValue
  | noneVal
  | strVal (s : String)
  | intVal (n : Int)
  | boolVal (b : Bool)
  | listVal
  | objVal
deriving DecidableEq

/-- A stored optional property as a Python value. -/
def pyOfOpt : Option PropValue → PyValue
  | none => PyValue.noneVal
  | some (PropValue.str s) => PyValue.strVal s
  | some (PropValue.int n) => PyValue.intVal n

/-- Python `getattr(device, name, None)` over the full attribute surface of
`HDHomeRunDevice.__init__` (`discover.py` lines 510-533): `none` means the
attribute does not exist (so `getattr` falls back to its default).  The
session and logger attributes are not tracked by the embedding and are
rendered as opaque objects; no code path of the embedded module reads them
through `getattr`. -/
def pyGetattr (d : HDHomeRunDevice) (name : String) : Option PyValue :=
  if name = "_host" then some (pyOfOpt (some d._host))
  else if name = "_log_formatter" then some PyValue.objVal
  else if name = "_created_session" then some (PyValue.boolVal false)
  else if name = "_session" then some PyValue.noneVal
  else if name = "_available_firmware" then some (pyOfOpt d._available_firmware)
  else if name = "_base_url" then some (pyOfOpt d._base_url)
  else if name = "_channels" then some PyValue.listVal
  else if name = "_device_auth_str" then some (pyOfOpt d._device_auth_str)
  else if name = "_device_id" then some (pyOfOpt d._device_id)
  else if name = "_device_type" then some (pyOfOpt d._device_type)
  else if name = "_discover_url" then some (pyOfOpt d._discover_url)
  else if name = "_discovery_method" then
    some (match d._discovery_method with
          | none => PyValue.noneVal
          | some _ => PyValue.objVal)
  else if name = "_friendly_name" then some (pyOfOpt d._friendly_name)
  else if name = "_is_online" then some (PyValue.boolVal d._is_online)
  else if name = "_lineup_url" then some (pyOfOpt d._lineup_url)
  else if name = "_sys_hwmodel" then some (pyOfOpt d._sys_hwmodel)
  else if name = "_sys_model" then some (pyOfOpt d._sys_model)
  else if name = "_sys_version" then some (pyOfOpt d._sys_version)
  else if name = "_tuner_count" then some (pyOfOpt d._tuner_count)
  else if name = "_tuner_status" then
    some (match d._tuner_status with
          | none => PyValue.noneVal
          | some _ => PyValue.listVal)
  else none

/-- Whether a `getattr(..., None)` result is Python `None`: either the
attribute is missing (default) or it holds `None`. -/
def pyIsNone : Option PyValue → Bool
  | none => true
  | some PyValue.noneVal => true
  | some _ => false

/-- `Discover.rediscover` (`discover.py` lines 134-168).  The branch test
reads `_discovery_mode` through `getattr`; when it is `None` a full discovery
runs and the local `device` is bound to the first result whose IP matches the
target (and stays unbound when none matches, so the later `if not device`
raises `UnboundLocalError`); otherwise the targeted HTTP or UDP rediscover
result is used.  A bound device object is always truthy; a bound list is
truthy when non-empty, and a falsy `device` returns the target marked
offline. -/
def Discover_rediscover (target : HDHomeRunDevice)
    (fullDiscovery : List HDHomeRunDevice) (httpRedisc : HDHomeRunDevice)
    (udpRedisc : List HDHomeRunDevice) : Except PyErr HDHomeRunDevice :=
  let deviceVar : Option (HDHomeRunDevice ⊕ List HDHomeRunDevice) :=
    if pyIsNone (pyGetattr target "_discovery_mode") then
      (fullDiscovery.find? (fun dev => dev._host == target._host)).map Sum.inl
    else if !pyIsNone (pyGetattr target "_discover_url") then some (Sum.inl httpRedisc)
    else some (Sum.inr udpRedisc)
  match deviceVar with
  | none => Except.error PyErr.unboundLocalError
  | some (Sum.inl dev) => Except.ok { dev with _is_online := true }
  | some (Sum.inr devs) =>
    match devs with
    | [] => Except.ok { target with _is_online := false }
    | dev :: _ => Except.ok { dev with _is_online := true }

deriving instance DecidableEq for Except

/-- An enrichment oracle whose every GET fails at the transport level. -/
def enrichFailOracle : HDHomeRunDevice → HttpDiscoverResult :=
  fun _ => HttpDiscoverResult.failure

/-- An enrichment oracle whose every GET succeeds with an empty JSON object. -/
def enrichEmptyOracle : HDHomeRunDevice → HttpDiscoverResult :=
  fun _ => HttpDiscoverResult.obj []

/-- A fixed hostname oracle for the enrichment URL. -/
def enrichHostOracle : HDHomeRunDevice → String := fun _ => "api.example"

/-- A channel-details oracle that contributes nothing. -/
def emptyExtras : String → TunerInfo := fun _ => []

/-- An HTTP directory entry for device `ABCD1234` carrying a base URL. -/
def c1HttpJson : JsonObject :=
  [("DeviceID", PropValue.str "ABCD1234"),
   ("BaseURL", PropValue.str "http://http-base"),
   ("LocalIP", PropValue.str "1.2.3.4")]

/-- A UDP-discovered record for the same device id with its own base URL. -/
def c1UdpDevice : HDHomeRunDevice :=
  { _host := PropValue.str "1.2.3.4",
    _device_id := some (PropValue.str "ABCD1234"),
    _base_url := some (PropValue.str "http://udp-base") }

/-- The JSON object of the spec scenario for HTTP directory discovery. -/
def c8Json : JsonObject :=
  [("DeviceID", PropValue.str "1234ABCD"),
   ("TunerCount", PropValue.int 4),
   ("LocalIP", PropValue.str "10.0.0.5")]

/-- A non-empty prior tuner status. -/
def c3PriorStatus : List TunerInfo := [[("Resource", PropValue.str "tuner0")]]

/-- A device holding a stale, non-empty tuner status from an earlier refresh. -/
def c3PriorDevice : HDHomeRunDevice :=
  { _host := PropValue.str "10.0.0.7",
    _tuner_count := some (PropValue.int 1),
    _tuner_status := some c3PriorStatus }

/-- A rediscover target and a discovered device on a different address. -/
def c10Target : HDHomeRunDevice := { _host := PropValue.str "1.1.1.1" }

/-- A discovered device whose address does not match `c10Target`. -/
def c10Other : HDHomeRunDevice := { _host := PropValue.str "2.2.2.2" }

/-- An HTTP-style record used to exercise the merge idempotence claim. -/
def c9HttpDevice : HDHomeRunDevice :=
  { _host := PropValue.str "1.2.3.4",
    _device_id := some (PropValue.str "ABCD1234"),
    _base_url := some (PropValue.str "http://h"),
    _friendly_name := some (PropValue.str "HDHomeRun") }

theorem mergeUdpDevice_explicit (e u : HDHomeRunDevice) :
    mergeUdpDevice e u =
      { e with
        _base_url := pickUdp e._base_url u._base_url,
        _device_auth_str := pickUdp e._device_auth_str u._device_auth_str,
        _device_id := pickUdp e._device_id u._device_id,
        _device_type := pickUdp e._device_type u._device_type,
        _lineup_url := pickUdp e._lineup_url u._lineup_url,
        _tuner_count := pickUdp e._tuner_count u._tuner_count } := by
  cases hb : u._base_url <;> cases ha : u._device_auth_str <;> cases hi : u._device_id <;>
    cases ht : u._device_type <;> cases hl : u._lineup_url <;> cases hc : u._tuner_count <;>
    simp [mergeUdpDevice, tagPropertyMap, getProp, setProp, pickUdp, hb, ha, hi, ht, hl, hc]

theorem pickUdp_idem (a b : Option PropValue) :
    pickUdp (pickUdp a b) b = pickUdp a b := by
  cases b <;> rfl

theorem tcpStatusFold_allNone (extras : String → TunerInfo)
    (replies : List (Option (String × String))) (d : HDHomeRunDevice)
    (ts : List TunerInfo) (h : ∀ r ∈ replies, r = none) :
    tcpStatusFold extras replies d ts =
      Except.ok (if replies.isEmpty then d else { d with _is_online := false }, ts) := by
  induction replies generalizing d with
  | nil => rfl
  | cons r rest ih =>
    have hr : r = none := h r (List.mem_cons_self r rest)
    subst hr
    have hrest : ∀ x ∈ rest, x = none := fun x hx => h x (List.mem_cons_of_mem _ hx)
    rw [tcpStatusFold, ih _ hrest]
    cases rest <;> simp

theorem tcpStatusFold_online (extras : String → TunerInfo)
    (replies : List (Option (String × String))) (d : HDHomeRunDevice)
    (ts : List TunerInfo) (d2 : HDHomeRunDevice) (ts2 : List TunerInfo)
    (hnone : ∀ r ∈ replies, r ≠ none) (hon : d._is_online = true)
    (h : tcpStatusFold extras replies d ts = Except.ok (d2, ts2)) :
    d2._is_online = true := by
  induction replies generalizing d ts with
  | nil =>
    rw [tcpStatusFold] at h
    cases h
    exact hon
  | cons r rest ih =>
    cases r with
    | none => exact absurd rfl (hnone none (List.mem_cons_self _ _))
    | some reply =>
      rw [tcpStatusFold] at h
      cases hp : processTuner extras reply with
      | error e => rw [hp] at h; cases h
      | ok info =>
        rw [hp] at h
        exact ih _ _ (fun x hx => hnone x (List.mem_cons_of_mem _ hx)) rfl h

theorem jsonFind_filter (o : JsonObject) :
    List.find? (fun kv => decide (kv.1 = "LocalIP"))
        (o.filter (fun kv => (dictGet jsonPropertiesMap kv.1).isSome)) =
      List.find? (fun kv => decide (kv.1 = "LocalIP")) o := by
  induction o with
  | nil => rfl
  | cons kv rest ih =>
    by_cases hk : kv.1 = "LocalIP"
    · have hp : (dictGet jsonPropertiesMap kv.1).isSome = true := by
        rw [hk]; decide
      rw [List.filter_cons, if_pos hp, List.find?_cons, List.find?_cons]
      simp [hk]
    · by_cases hp : (dictGet jsonPropertiesMap kv.1).isSome
      · rw [List.filter_cons, if_pos hp, List.find?_cons, List.find?_cons]
        simp [hk, ih]
      · rw [List.filter_cons, if_neg hp, List.find?_cons]
        simp [hk, ih]

theorem jsonFold_filter (dev : HDHomeRunDevice) (o : JsonObject) :
    List.foldl
        (fun d kv =>
          match dictGet jsonPropertiesMap kv.1 with
          | some p => setProp d p kv.2
          | none => d)
        dev (o.filter (fun kv => (dictGet jsonPropertiesMap kv.1).isSome)) =
      List.foldl
        (fun d kv =>
          match dictGet jsonPropertiesMap kv.1 with
          | some p => setProp d p kv.2
          | none => d)
        dev o := by
  induction o generalizing dev with
  | nil => rfl
  | cons kv rest ih =>
    by_cases hp : (dictGet jsonPropertiesMap kv.1).isSome
    · rw [List.filter_cons, if_pos hp, List.foldl_cons, List.foldl_cons, ih]
    · rw [List.filter_cons, if_neg hp, List.foldl_cons]
      cases hq : dictGet jsonPropertiesMap kv.1 with
      | some p => rw [hq] at hp; simp at hp
      | none => simp only [hq]; exact ih dev

theorem rediscover_failure (t : HDHomeRunDevice) (hn : String) :
    DiscoverHTTP_rediscover t HttpDiscoverResult.failure hn = Except.ok t := rfl

theorem enrichFold_allFailure (entries : DeviceDict)
    (enrichResp : HDHomeRunDevice → HttpDiscoverResult)
    (enrichHostname : HDHomeRunDevice → String)
    (h : ∀ d, enrichResp d = HttpDiscoverResult.failure)
    (acc : List HDHomeRunDevice) :
    entries.foldlM
        (fun acc2 entry =>
          (DiscoverHTTP_rediscover entry.2 (enrichResp entry.2)
              (enrichHostname entry.2)).map
            (fun d => acc2 ++ [d]))
        acc =
      Except.ok (acc ++ entries.map (fun entry => entry.2)) := by
  induction entries generalizing acc with
  | nil => simp; rfl
  | cons entry rest ih =>
    rw [List.foldlM_cons, h entry.2, rediscover_failure]
    exact (ih (acc ++ [entry.2])).trans (by simp)

/-- C1 counterexample: with HTTP and UDP records for the same device id that
both carry a base URL, combined discovery returns the UDP value, so the
non-empty HTTP-derived value was overwritten by the merged UDP record. -/
theorem claim_C1_counterexample :
    (Discover_discover DiscoverMode.AUTO (HttpDiscoverResult.arr [c1HttpJson])
        "api.example" [c1UdpDevice] enrichFailOracle enrichHostOracle).map
      (fun l => l.map (fun d => d._base_url)) =
      Except.ok [some (PropValue.str "http://udp-base")] ∧
    some (PropValue.str "http://udp-base") ≠ some (PropValue.str "http://http-base") := by
  decide

/-- C1 amended: for every field of the UDP tag table, the UDP merge of
`Discover.discover` overwrites the stored (HTTP-derived) value whenever the
UDP record carries any value for the field; the stored value survives only
when the UDP record lacks the field.  Fields outside the table are never
touched by the merge. -/
theorem claim_C1_amended (e u : HDHomeRunDevice) (p : PropName) :
    getProp (mergeUdpDevice e u) p =
      if p ∈ udpMergeProps then pickUdp (getProp e p) (getProp u p)
      else getProp e p := by
  rw [mergeUdpDevice_explicit]
  cases p <;> simp [getProp, udpMergeProps, tagPropertyMap, pickUdp]

/-- C2: a UDP discovery reply whose device-id tag holds the 4-byte big-endian
value 0x00001234 decodes to a device whose id renders as "1234" through the
width-4 format `f"{value:04X}"`, not as the 8-hex-digit "00001234" the claim
states; the tuner-count tag decodes as claimed. -/
theorem claim_C2_theorem :
    datagram_received "192.168.1.10"
        { header := HDHOMERUN_TYPE_DISCOVER_RPY,
          data := [(HDHOMERUN_TAG_DEVICE_ID, [0x00, 0x00, 0x12, 0x34]),
                   (HDHOMERUN_TAG_TUNER_COUNT, [2])] } =
      Except.ok { _host := PropValue.str "192.168.1.10",
                  _device_id := some (PropValue.str "1234"),
                  _tuner_count := some (PropValue.int 2) } ∧
    pyFormat04X 0x00001234 ≠ "00001234" := by
  decide

/-- C9: merging the same UDP raw property set twice onto a stored device with
the same device id gives exactly the device obtained by merging it once. -/
theorem claim_C9_theorem (e u : HDHomeRunDevice) (_h : e._device_id = u._device_id) :
    mergeUdpDevice (mergeUdpDevice e u) u = mergeUdpDevice e u := by
  simp [mergeUdpDevice_explicit, pickUdp_idem]

/-- C9 witness: the idempotence theorem applied to a concrete HTTP record and
a UDP record sharing the device id. -/
theorem claim_C9_witness :
    c9HttpDevice._device_id = c1UdpDevice._device_id ∧
    mergeUdpDevice (mergeUdpDevice c9HttpDevice c1UdpDevice) c1UdpDevice =
      mergeUdpDevice c9HttpDevice c1UdpDevice :=
  ⟨rfl, claim_C9_theorem c9HttpDevice c1UdpDevice rfl⟩

/-- C3 counterexample: a TCP tuner refresh whose every tuner query failed
(yielding no tuners) returns the device still holding the stale, non-empty
prior status, instead of the empty or absent status the claim states. -/
theorem claim_C3_counterexample :
    (tunerRefreshTcp c3PriorDevice [none] emptyExtras).map (fun d => d._tuner_status) =
      Except.ok (some c3PriorStatus) ∧
    c3PriorStatus ≠ [] := by
  decide

/-- C3 amended: an HTTP tuner-status refresh that fails outright leaves the
prior `tuner_status` unchanged; and a TCP refresh that yields no tuners also
leaves the prior value unchanged, because the decoded list is assigned only
when it is non-empty. -/
theorem claim_C3_theorem :
    (∀ (d : HDHomeRunDevice) (o : HttpFetchOutcome),
        (∀ b, o ≠ HttpFetchOutcome.success b) →
        (tunerRefreshHttp d o)._tuner_status = d._tuner_status) ∧
    (∀ (d : HDHomeRunDevice) (extras : String → TunerInfo),
        tunerRefreshTcp d [] extras = Except.ok d) ∧
    (∀ (d : HDHomeRunDevice) (extras : String → TunerInfo)
        (replies : List (Option (String × String))),
        (∀ r ∈ replies, r = none) →
        (tunerRefreshTcp d replies extras).map (fun x => x._tuner_status) =
          Except.ok d._tuner_status) := by
  refine ⟨?_, ?_, ?_⟩
  · intro d o h
    cases o with
    | clientResponseError => rfl
    | timeoutError => rfl
    | otherError => rfl
    | success b => exact absurd rfl (h b)
  · intro d extras
    rfl
  · intro d extras replies h
    rw [tunerRefreshTcp, tcpStatusFold_allNone extras replies d [] h]
    by_cases hre : replies.isEmpty <;> simp [hre] <;> rfl

/-- C3 witness: the amended theorem at a device with a stale status, for a
timed-out HTTP fetch, an empty tuner list and an all-failed tuner gather. -/
theorem claim_C3_witness :
    (tunerRefreshHttp c3PriorDevice HttpFetchOutcome.timeoutError)._tuner_status =
      c3PriorDevice._tuner_status ∧
    tunerRefreshTcp c3PriorDevice [] emptyExtras = Except.ok c3PriorDevice ∧
    (tunerRefreshTcp c3PriorDevice [none] emptyExtras).map (fun x => x._tuner_status) =
      Except.ok c3PriorDevice._tuner_status :=
  ⟨claim_C3_theorem.1 c3PriorDevice HttpFetchOutcome.timeoutError (fun _ h => nomatch h),
   claim_C3_theorem.2.1 c3PriorDevice emptyExtras,
   claim_C3_theorem.2.2 c3PriorDevice emptyExtras [none] (by decide)⟩

/-- C4: in the embedded operations the online flag moves to `false` only on a
connection-level failure: the HTTP status refresh sets it to `false` exactly
on a timeout and to `true` on any successful response, empty bodies included,
leaving it unchanged on a non-2xx or other logged error; the TCP refresh of a
device that was online returns an offline device only when some tuner query
failed at the connection level; and every normally returned rediscover result
is marked online. -/
theorem claim_C4_theorem :
    (∀ d : HDHomeRunDevice,
        (tunerRefreshHttp d HttpFetchOutcome.timeoutError)._is_online = false) ∧
    (∀ (d : HDHomeRunDevice) (body : List TunerInfo),
        (tunerRefreshHttp d (HttpFetchOutcome.success body))._is_online = true) ∧
    (∀ d : HDHomeRunDevice,
        (tunerRefreshHttp d HttpFetchOutcome.clientResponseError)._is_online =
          d._is_online ∧
        (tunerRefreshHttp d HttpFetchOutcome.otherError)._is_online = d._is_online) ∧
    (∀ (d : HDHomeRunDevice) (replies : List (Option (String × String)))
        (extras : String → TunerInfo) (r : HDHomeRunDevice),
        d._is_online = true →
        tunerRefreshTcp d replies extras = Except.ok r →
        r._is_online = false →
        none ∈ replies) ∧
    (∀ (target : HDHomeRunDevice) (full : List HDHomeRunDevice)
        (hre : HDHomeRunDevice) (ure : List HDHomeRunDevice) (r : HDHomeRunDevice),
        Discover_rediscover target full hre ure = Except.ok r →
        r._is_online = true) := by
  refine ⟨fun _ => rfl, fun _ _ => rfl, fun _ => ⟨rfl, rfl⟩, ?_, ?_⟩
  · intro d replies extras r hon h hoff
    by_contra hmem
    have hnone : ∀ x ∈ replies, x ≠ none := fun x hx hxn => hmem (hxn ▸ hx)
    rw [tunerRefreshTcp] at h
    cases hf : tcpStatusFold extras replies d [] with
    | error e => rw [hf] at h; cases h
    | ok pair =>
      rw [hf] at h
      have h2 : pair.1._is_online = true :=
        tcpStatusFold_online extras replies d [] pair.1 pair.2 hnone hon hf
      cases h
      by_cases he : pair.2.isEmpty <;> simp [he] at hoff <;> rw [h2] at hoff <;>
        cases hoff
  · intro target full hre ure r hok
    rw [Discover_rediscover] at hok
    cases hfind : full.find? (fun dev => dev._host == target._host) with
    | none =>
      rw [show (pyIsNone (pyGetattr target "_discovery_mode")) = true from rfl,
        hfind] at hok
      simp at hok
    | some dev =>
      rw [show (pyIsNone (pyGetattr target "_discovery_mode")) = true from rfl,
        hfind] at hok
      simp at hok
      rw [← hok]

/-- C4 witness: the theorem on a concrete online device for a timeout, a
success with an empty body, a gather with one failed tuner, and a rediscover
that finds the target. -/
theorem claim_C4_witness :
    (tunerRefreshHttp c3PriorDevice HttpFetchOutcome.timeoutError)._is_online = false ∧
    (tunerRefreshHttp c3PriorDevice (HttpFetchOutcome.success []))._is_online = true ∧
    none ∈ ([none] : List (Option (String × String))) ∧
    HDHomeRunDevice._is_online { c10Target with _is_online := true } = true :=
  ⟨claim_C4_theorem.1 c3PriorDevice,
   claim_C4_theorem.2.1 c3PriorDevice [],
   claim_C4_theorem.2.2.2.1 c3PriorDevice [none] emptyExtras
     { c3PriorDevice with _is_online := false } rfl (by decide) rfl,
   claim_C4_theorem.2.2.2.2 c10Target [c10Target] c10Target []
     { c10Target with _is_online := true } (by decide)⟩

/-- C5: in the tuner-status detail loop a component whose integer value is
zero contributes nothing to the record; a non-zero component is stored under
its mapped name when its tag is one of `seq`, `snq`, `ss` and contributes
nothing otherwise; and the string "ss=80 snq=0 seq=95" decodes to a record
with SignalStrengthPercent 80 and SymbolQualityPercent 95 and no entry for
the zero-valued snq component. -/
theorem claim_C5_theorem :
    (∀ (info : TunerInfo) (detail tag value : List Char),
        splitOnChar '=' detail = [tag, value] →
        pyInt? value = some 0 →
        processDetail info detail = some info) ∧
    (∀ (info : TunerInfo) (detail tag value : List Char) (n : Int),
        splitOnChar '=' detail = [tag, value] →
        pyInt? value = some n →
        n ≠ 0 →
        processDetail info detail =
          some
            (if tag = "seq".data then
               dictSet info "SymbolQualityPercent" (PropValue.int n)
             else if tag = "snq".data then
               dictSet info "SignalQualityPercent" (PropValue.int n)
             else if tag = "ss".data then
               dictSet info "SignalStrengthPercent" (PropValue.int n)
             else info)) ∧
    processTuner emptyExtras ("/tuner0/status", "ss=80 snq=0 seq=95") =
      Except.ok [("Resource", PropValue.str "tuner0"),
                 ("SignalStrengthPercent", PropValue.int 80),
                 ("SymbolQualityPercent", PropValue.int 95)] ∧
    dictGet [("Resource", PropValue.str "tuner0"),
             ("SignalStrengthPercent", PropValue.int 80),
             ("SymbolQualityPercent", PropValue.int 95)] "SignalQualityPercent" =
      none := by
  refine ⟨?_, ?_, by decide, by decide⟩
  · intro info detail tag value hsplit hint
    rw [processDetail, hsplit]
    simp [hint]
  · intro info detail tag value n hsplit hint hne
    rw [processDetail, hsplit]
    simp [hint, hne]

/-- C5 witness: the theorem instantiated on the zero-valued component
"snq=0" and the non-zero component "ss=80". -/
theorem claim_C5_witness :
    processDetail [] "snq=0".data = some [] ∧
    processDetail [] "ss=80".data =
      some (dictSet [] "SignalStrengthPercent" (PropValue.int 80)) :=
  ⟨claim_C5_theorem.1 [] "snq=0".data "snq".data "0".data (by decide) (by decide),
   (claim_C5_theorem.2.1 [] "ss=80".data "ss".data "80".data 80 (by decide) (by decide)
       (by decide)).trans (by decide)⟩

/-- C6 counterexample: a combined discovery whose per-device enrichment GET
succeeds with an empty JSON body aborts with an uncaught `IndexError` instead
of returning the deduplicated sequence. -/
theorem claim_C6_counterexample :
    Discover_discover DiscoverMode.AUTO (HttpDiscoverResult.arr [c1HttpJson])
        "api.example" [] enrichEmptyOracle enrichHostOracle =
      Except.error PyErr.indexError := by
  decide

/-- C6 amended: a best-effort HTTP rediscover is issued for every resulting
device; a rediscover whose GET fails is caught, leaves the device as-is and
never aborts discovery, which still returns the deduplicated sequence.  A
rediscover whose endpoint returns a successful empty response, however,
raises an uncaught `IndexError` that aborts the overall discovery. -/
theorem claim_C6_theorem :
    (∀ (target : HDHomeRunDevice) (hostname : String),
        DiscoverHTTP_rediscover target HttpDiscoverResult.failure hostname =
          Except.ok target) ∧
    (∀ (mode : DiscoverMode) (directoryResp : HttpDiscoverResult) (hostname : String)
        (udpDevices : List HDHomeRunDevice)
        (enrichResp : HDHomeRunDevice → HttpDiscoverResult)
        (enrichHostname : HDHomeRunDevice → String),
        (∀ d, enrichResp d = HttpDiscoverResult.failure) →
        Discover_discover mode directoryResp hostname udpDevices enrichResp
            enrichHostname =
          Except.ok
            ((mergedDevices mode directoryResp hostname udpDevices).map
              (fun entry => entry.2))) ∧
    (∀ (target : HDHomeRunDevice) (hostname : String),
        DiscoverHTTP_rediscover target (HttpDiscoverResult.obj []) hostname =
          Except.error PyErr.indexError) := by
  refine ⟨fun _ _ => rfl, ?_, fun _ _ => rfl⟩
  intro mode directoryResp hostname udpDevices enrichResp enrichHostname h
  rw [Discover_discover]
  exact (enrichFold_allFailure _ enrichResp enrichHostname h []).trans (by simp)

/-- C6 witness: the amended theorem on an all-failing enrichment oracle for a
one-device directory result. -/
theorem claim_C6_witness :
    Discover_discover DiscoverMode.AUTO (HttpDiscoverResult.arr [c1HttpJson])
        "api.example" [] enrichFailOracle enrichHostOracle =
      Except.ok
        ((mergedDevices DiscoverMode.AUTO (HttpDiscoverResult.arr [c1HttpJson])
            "api.example" []).map (fun entry => entry.2)) :=
  claim_C6_theorem.2.1 DiscoverMode.AUTO (HttpDiscoverResult.arr [c1HttpJson])
    "api.example" [] enrichFailOracle enrichHostOracle (fun _ => rfl)

/-- C7: every failing directory GET (timeout, connector error or the non-2xx
raised by raise_for_status) surfaces as the dedicated
HTTP-discovery-unavailable error, and in AUTO mode a failing HTTP branch
makes combined discovery behave exactly as a pure UDP discovery, so HTTP
unavailability never aborts it. -/
theorem claim_C7_theorem :
    (∀ hostname : String,
        DiscoverHTTP_discover HttpDiscoverResult.failure hostname =
          Except.error PyErr.httpDiscoveryNotAvailable) ∧
    (∀ (hostname : String) (udpDevices : List HDHomeRunDevice)
        (enrichResp : HDHomeRunDevice → HttpDiscoverResult)
        (enrichHostname : HDHomeRunDevice → String),
        Discover_discover DiscoverMode.AUTO HttpDiscoverResult.failure hostname
            udpDevices enrichResp enrichHostname =
          Discover_discover DiscoverMode.UDP HttpDiscoverResult.failure hostname
            udpDevices enrichResp enrichHostname) :=
  ⟨fun _ => rfl, fun _ _ _ _ => rfl⟩

/-- C8: a non-empty single JSON object and the one-element array holding it
normalize to the same one-device sequence; keys outside the fixed name table
never influence the built device; and the spec scenario array yields exactly
one device with the mapped id, host, tuner count and the HTTP discovery
method. -/
theorem claim_C8_theorem :
    (∀ (o : JsonObject) (hostname : String),
        o ≠ [] →
        DiscoverHTTP_discover (HttpDiscoverResult.obj o) hostname =
          DiscoverHTTP_discover (HttpDiscoverResult.arr [o]) hostname) ∧
    (∀ (o : JsonObject) (hostname : String),
        buildDeviceFromJson hostname o =
          buildDeviceFromJson hostname
            (o.filter (fun kv => (dictGet jsonPropertiesMap kv.1).isSome))) ∧
    Discover_discover DiscoverMode.HTTP (HttpDiscoverResult.arr [c8Json])
        "api.example" [] enrichFailOracle enrichHostOracle =
      Except.ok [{ _host := PropValue.str "10.0.0.5",
                   _device_id := some (PropValue.str "1234ABCD"),
                   _tuner_count := some (PropValue.int 4),
                   _discovery_method := some DiscoverMode.HTTP }] := by
  refine ⟨?_, ?_, by decide⟩
  · intro o hostname h
    rw [DiscoverHTTP_discover, DiscoverHTTP_discover]
    simp [h]
  · intro o hostname
    rw [buildDeviceFromJson, buildDeviceFromJson, dictGet, dictGet, jsonFind_filter,
      jsonFold_filter]

/-- C8 witness: the normalization equality applied to the non-empty scenario
object. -/
theorem claim_C8_witness :
    DiscoverHTTP_discover (HttpDiscoverResult.obj c8Json) "api.example" =
      DiscoverHTTP_discover (HttpDiscoverResult.arr [c8Json]) "api.example" :=
  claim_C8_theorem.1 c8Json "api.example" (by decide)

/-- C10: no `HDHomeRunDevice` attribute is named `_discovery_mode` (devices
define `_discovery_method`), so the `getattr` test of `Discover.rediscover`
always yields `None`; consequently the targeted HTTP/UDP branch is
unreachable (the result never depends on those outcomes) and a full discovery
always runs; and when no discovered device has the target's IP the local
`device` variable is never bound and the call raises `UnboundLocalError`. -/
theorem claim_C10_theorem :
    (∀ d : HDHomeRunDevice, pyGetattr d "_discovery_mode" = none) ∧
    (∀ (target : HDHomeRunDevice) (full : List HDHomeRunDevice)
        (hre hre2 : HDHomeRunDevice) (ure ure2 : List HDHomeRunDevice),
        Discover_rediscover target full hre ure =
          Discover_rediscover target full hre2 ure2) ∧
    (∀ (target : HDHomeRunDevice) (full : List HDHomeRunDevice)
        (hre : HDHomeRunDevice) (ure : List HDHomeRunDevice),
        (∀ dev ∈ full, (dev._host == target._host) = false) →
        Discover_rediscover target full hre ure =
          Except.error PyErr.unboundLocalError) := by
  refine ⟨fun _ => rfl, fun _ _ _ _ _ _ => rfl, ?_⟩
  intro target full hre ure h
  have hf : full.find? (fun dev => dev._host == target._host) = none := by
    rw [List.find?_eq_none]
    intro x hx
    simp [h x hx]
  have hg : pyIsNone (pyGetattr target "_discovery_mode") = true := rfl
  rw [Discover_rediscover]
  simp [hg, hf]

/-- C10 witness: the unbound-local conclusion on a target whose IP matches no
discovered device. -/
theorem claim_C10_witness :
    Discover_rediscover c10Target [c10Other] c10Target [] =
      Except.error PyErr.unboundLocalError :=
  claim_C10_theorem.2.2 c10Target [c10Other] c10Target [] (by decide)
